import Mathlib

/-!
Verification development for the better.launcher daemon supervisor
(`gui.py`).  The Python source is shallowly embedded: each launcher
function becomes a pure Lean function from its inputs (configuration
flags, filesystem facts, the behaviour of the network and of the child
process, all passed explicitly) to a trace record collecting the
observable outcome: the returned-or-raised status, the log lines
printed, the network / download / process-control operations performed,
and the resulting file or handle state.
-/

/-- Outcome of a Python call: it either returns normally (all the
launcher functions return `None`) or lets an exception escape. -/
inductive PyResult where
  | ret
  | exn (name : String)
  deriving DecidableEq, Repr

/-- The global `config` dict: `update_enabled` and
`assets_saving_enabled`, both defaulting to `True` in the source. -/
structure Config where
  update_enabled : Bool
  assets_saving_enabled : Bool
  deriving DecidableEq, Repr

/-! ### Python string primitives

The manifest parsing in `validate_daemon` uses `str.splitlines`,
`str.strip` and the slice `[6:70]`.  They are embedded at the level of
the character list `s.data` so that every definition evaluates by
kernel reduction.  `splitlines` is modelled for `"\n"` line
boundaries, the convention of the remote manifest. -/

/-- Split a character list at every newline character; a trailing
newline yields a trailing empty segment (trimmed away below, as Python
does). -/
def splitNl : List Char → List (List Char)
  | [] => [[]]
  | c :: rest =>
    if c = '\n' then [] :: splitNl rest
    else match splitNl rest with
      | [] => [[c]]
      | l :: ls => (c :: l) :: ls

/-- Python `str.splitlines` (for `"\n"` boundaries): the empty string
gives no lines, and a trailing newline does not create a final empty
line — but an empty line before the end (e.g. `"a\n\n"`) is kept. -/
def pySplitlines (s : String) : List String :=
  if s.data = [] then []
  else
    let parts := splitNl s.data
    let parts := if parts.getLast? = some [] then parts.dropLast else parts
    parts.map List.asString

/-- Python `str.strip`: drop whitespace from both ends. -/
def pyStrip (s : String) : String :=
  (((s.data.dropWhile Char.isWhitespace).reverse.dropWhile
      Char.isWhitespace).reverse).asString

/-- Python slice `s[a:b]` (for `a ≤ b`): at most `b - a` characters
starting at index `a`; short strings give a short or empty result,
never an error. -/
def pySlice (s : String) (a b : Nat) : String :=
  ((s.data.drop a).take (b - a)).asString

/-- Python `str.lower`, character by character. -/
def pyLower (s : String) : String :=
  (s.data.map Char.toLower).asString

/-- The expected digest `validate_daemon` extracts from a manifest
body: `lines[-1].strip()[6:70]` after `response.text.splitlines()`.
`none` when the body has no lines at all (in the source, `lines[-1]`
then raises `IndexError`). -/
def manifestExpected (body : String) : Option String :=
  (pySplitlines body).getLast?.map (fun line => pySlice (pyStrip line) 6 70)

/-! ### validate_daemon -/

/-- Behaviour of the single `requests.get(hash_url, timeout=10)` call
in `validate_daemon`: the request either raises a
`requests.RequestException` or returns a response with a status code
and a text body. -/
inductive Fetch where
  | raises
  | ok (status : Nat) (body : String)
  deriving DecidableEq, Repr

/-- Observable outcome of one `validate_daemon` call.
`manifestFetches` counts `requests.get` calls made by the function
itself, `downloadCalls` counts invocations of `download_daemon`
(whose own behaviour is modelled separately by `download_daemon`
below). -/
structure VTrace where
  result : PyResult
  manifestFetches : Nat
  downloadCalls : Nat
  logs : List String
  deriving DecidableEq, Repr

/-- Shallow embedding of `validate_daemon` (gui.py lines 156-192).
Inputs: the config, whether the daemon file exists, the SHA-256 hex
digest of the local daemon file (hashing itself is opaque; its
`hexdigest()` result is passed in), and the behaviour of the manifest
request. -/
def validate_daemon (cfg : Config) (daemonExists : Bool)
    (localDigest : String) (fetch : Fetch) : VTrace :=
  if cfg.update_enabled = false then
    { result := .ret, manifestFetches := 0, downloadCalls := 0,
      logs := ["Daemon updates are disabled."] }
  else if daemonExists = false then
    { result := .ret, manifestFetches := 0, downloadCalls := 1,
      logs := ["Validating daemon..."] }
  else
    match fetch with
    | .raises =>
      { result := .ret, manifestFetches := 1, downloadCalls := 0,
        logs := ["Validating daemon...",
                 "Error retrieving hash file: <RequestException>"] }
    | .ok status body =>
      if status = 200 then
        match manifestExpected body with
        | none =>
          { result := .exn "IndexError", manifestFetches := 1,
            downloadCalls := 0, logs := ["Validating daemon..."] }
        | some expected =>
          if localDigest = expected then
            { result := .ret, manifestFetches := 1, downloadCalls := 0,
              logs := ["Validating daemon...", "Daemon is up-to-date."] }
          else
            { result := .ret, manifestFetches := 1, downloadCalls := 1,
              logs := ["Validating daemon...",
                       "Daemon hash mismatch. Downloading updated daemon..."] }
      else
        { result := .ret, manifestFetches := 1, downloadCalls := 0,
          logs := ["Validating daemon...",
                   "Failed to retrieve hash file: " ++ toString status] }

/-! ### download_daemon -/

/-- Behaviour of the streamed response body in `download_daemon`:
`iter_content` either delivers all chunks or delivers a prefix and
then raises a `requests.RequestException`. -/
inductive StreamBeh where
  | complete (chunks : List (List Nat))
  | failAfter (delivered : List (List Nat))
  deriving DecidableEq, Repr

/-- Behaviour of `requests.get(daemon_url, stream=True, timeout=10)`:
raise at once, or return a response with a status and a body stream. -/
inductive DlFetch where
  | raises
  | ok (status : Nat) (stream : StreamBeh)
  deriving DecidableEq, Repr

/-- Observable outcome of one `download_daemon` call.  `destFile` is
the content of `daemon_path` after the call (`none` when the file does
not exist); `execBitSet` records whether `daemon_path.chmod(0o755)`
ran in this call. -/
structure DlTrace where
  destFile : Option (List Nat)
  execBitSet : Bool
  result : PyResult
  networkOps : Nat
  logs : List String
  deriving DecidableEq, Repr

/-- Shallow embedding of `download_daemon` (gui.py lines 133-154).
`dest0` is the content of `daemon_path` before the call.  The source
opens `daemon_path` itself with `open(daemon_path, "wb")` — that
truncates any existing file at once — and streams chunks into it;
`chmod` runs only after a complete stream; a `requests` exception is
caught and printed. -/
def download_daemon (cfg : Config) (dest0 : Option (List Nat))
    (f : DlFetch) : DlTrace :=
  if cfg.update_enabled = false then
    { destFile := dest0, execBitSet := false, result := .ret,
      networkOps := 0, logs := ["Daemon updates are disabled."] }
  else
    match f with
    | .raises =>
      { destFile := dest0, execBitSet := false, result := .ret,
        networkOps := 1,
        logs := ["Downloading daemon...",
                 "Error downloading daemon: <RequestException>"] }
    | .ok status stream =>
      if status = 200 then
        match stream with
        | .complete chunks =>
          { destFile := some chunks.flatten, execBitSet := true,
            result := .ret, networkOps := 1,
            logs := ["Downloading daemon...",
                     "Daemon downloaded successfully."] }
        | .failAfter delivered =>
          { destFile := some delivered.flatten, execBitSet := false,
            result := .ret, networkOps := 1,
            logs := ["Downloading daemon...",
                     "Error downloading daemon: <RequestException>"] }
      else
        { destFile := dest0, execBitSet := false, result := .ret,
          networkOps := 1,
          logs := ["Downloading daemon...",
                   "Failed to download daemon: " ++ toString status] }

/-! ### Asset synchronization -/

/-- An asset tree: relative paths with file contents. -/
abbrev AssetTree := List (String × String)

/-- Behaviour of the `shutil.copytree(src, dst)` call: it either
succeeds (destination becomes an exact copy of the source) or raises
after having materialised `copied` at the destination (`none`: nothing
was created). -/
inductive CopyBeh where
  | ok
  | fail (copied : Option AssetTree)
  deriving DecidableEq, Repr

/-- Destructive filesystem operations a copy helper performs, in
order. -/
inductive FsOp where
  | rmtreeDst
  | copytreeCall
  deriving DecidableEq, Repr

/-- Observable outcome of `copy_assets_to_tmp` / `copy_assets_from_tmp`:
the destination tree after the call, the destructive operations in the
order performed, the returned-or-raised status and the log lines. -/
structure CopyTrace where
  finalDst : Option AssetTree
  ops : List FsOp
  result : PyResult
  logs : List String
  deriving DecidableEq, Repr

/-- Destination tree produced by a `shutil.copytree` call from source
`s` with behaviour `beh`. -/
def copyOutcome (s : AssetTree) (beh : CopyBeh) : Option AssetTree :=
  match beh with
  | .ok => some s
  | .fail c => c

/-- Shallow embedding of `copy_assets_to_tmp` (gui.py lines 80-103):
skip when assets saving is disabled; skip when the source tree is
absent; otherwise `shutil.rmtree` the destination when it exists (not
inside any `try`), then `shutil.copytree` inside a `try` whose
`except` only prints. -/
def copy_assets_to_tmp (enabled : Bool) (src dst : Option AssetTree)
    (beh : CopyBeh) : CopyTrace :=
  if enabled = false then
    { finalDst := dst, ops := [], result := .ret,
      logs := ["Assets saving is disabled. Skipping copy to tmp."] }
  else
    match src with
    | none =>
      { finalDst := dst, ops := [], result := .ret,
        logs := ["No assets directory found locally."] }
    | some s =>
      let pre : List FsOp := if dst.isSome then [.rmtreeDst] else []
      match beh with
      | .ok =>
        { finalDst := some s, ops := pre ++ [.copytreeCall], result := .ret,
          logs := ["Assets copied to /tmp successfully."] }
      | .fail c =>
        { finalDst := c, ops := pre ++ [.copytreeCall], result := .ret,
          logs := ["Error copying assets to /tmp: <Exception>"] }

/-- Shallow embedding of `copy_assets_from_tmp` (gui.py lines 105-128),
the mirror image of `copy_assets_to_tmp`: source is the tmp tree,
destination the local assets tree, same skip / rmtree / copytree
structure. -/
def copy_assets_from_tmp (enabled : Bool) (src dst : Option AssetTree)
    (beh : CopyBeh) : CopyTrace :=
  if enabled = false then
    { finalDst := dst, ops := [], result := .ret,
      logs := ["Assets saving is disabled. Skipping copy from tmp."] }
  else
    match src with
    | none =>
      { finalDst := dst, ops := [], result := .ret,
        logs := ["No assets directory found in /tmp/Protoverse. Skipping."] }
    | some s =>
      let pre : List FsOp := if dst.isSome then [.rmtreeDst] else []
      match beh with
      | .ok =>
        { finalDst := some s, ops := pre ++ [.copytreeCall], result := .ret,
          logs := ["Assets copied back from /tmp to local directory successfully."] }
      | .fail c =>
        { finalDst := c, ops := pre ++ [.copytreeCall], result := .ret,
          logs := ["Error copying assets from /tmp: <Exception>"] }

/-! ### start_daemon / stop_daemon -/

/-- Observable outcome of one `start_daemon` call.  The handle is the
global `daemon_process`, modelled as `Option Nat` (a process id when a
`Popen` object is held). `spawnAttempts` counts `subprocess.Popen`
calls; `assetPushInvoked` records the `copy_assets_to_tmp()` call;
`chmodInvoked` the `daemon_path.chmod(0o755)` call. -/
structure StartTrace where
  finalHandle : Option Nat
  spawnAttempts : Nat
  assetPushInvoked : Bool
  chmodInvoked : Bool
  logs : List String
  deriving DecidableEq, Repr

/-- Shallow embedding of `start_daemon` (gui.py lines 194-216).
`h` is the value of `daemon_process` before the call; `spawn` is the
behaviour of `subprocess.Popen` (`some pid`: success; `none`: raises,
caught and printed — note the assignment then never happens, so the
old handle is retained).  The source performs no check whatsoever on
the existing handle. -/
def start_daemon (h : Option Nat) (daemonExists : Bool)
    (spawn : Option Nat) : StartTrace :=
  if daemonExists = false then
    { finalHandle := h, spawnAttempts := 0, assetPushInvoked := false,
      chmodInvoked := false,
      logs := ["Daemon not found. Please download or place it in the same folder."] }
  else
    match spawn with
    | some pid =>
      { finalHandle := some pid, spawnAttempts := 1, assetPushInvoked := true,
        chmodInvoked := true,
        logs := ["Starting daemon...", "Daemon started successfully."] }
    | none =>
      { finalHandle := h, spawnAttempts := 1, assetPushInvoked := true,
        chmodInvoked := true,
        logs := ["Starting daemon...", "Failed to start daemon: <Exception>"] }

/-- Process-control operations `stop_daemon` can perform on the child:
`terminate` (SIGTERM), `wait secs` (bounded wait) and `kill`
(SIGKILL).  The source never issues `kill`; the constructor exists so
that its absence from a trace is a provable statement. -/
inductive ProcOp where
  | terminate
  | wait (secs : Nat)
  | kill
  deriving DecidableEq, Repr

/-- How the child process reacts in `stop_daemon`: it exits within the
grace period, or `wait(5)` times out (raising
`subprocess.TimeoutExpired`), or `terminate()` itself raises. -/
inductive StopBeh where
  | exits
  | waitTimesOut
  | terminateRaises
  deriving DecidableEq, Repr

/-- Observable outcome of one `stop_daemon` call. -/
structure StopTrace where
  finalHandle : Option Nat
  procOps : List ProcOp
  result : PyResult
  logs : List String
  deriving DecidableEq, Repr

/-- Shallow embedding of `stop_daemon` (gui.py lines 218-231).
`h` is the `daemon_process` handle; `alive` is whether `poll()` is
`None` (process still running).  The whole terminate/wait sequence sits
in a `try` whose `except Exception` only prints, and
`daemon_process = None` runs unconditionally afterwards. -/
def stop_daemon (h : Option Nat) (alive : Bool) (beh : StopBeh) : StopTrace :=
  match h with
  | none =>
    { finalHandle := none, procOps := [], result := .ret, logs := [] }
  | some _ =>
    if alive = false then
      { finalHandle := none, procOps := [], result := .ret, logs := [] }
    else
      match beh with
      | .exits =>
        { finalHandle := none, procOps := [.terminate, .wait 5],
          result := .ret,
          logs := ["Stopping daemon...", "Daemon stopped."] }
      | .waitTimesOut =>
        { finalHandle := none, procOps := [.terminate, .wait 5],
          result := .ret,
          logs := ["Stopping daemon...",
                   "Failed to stop daemon: <TimeoutExpired>"] }
      | .terminateRaises =>
        { finalHandle := none, procOps := [.terminate],
          result := .ret,
          logs := ["Stopping daemon...",
                   "Failed to stop daemon: <Exception>"] }

/-! ### on_play_clicked -/

/-- Observable outcome of one `on_play_clicked` call: the integrity
check trace, whether the browser step ran, and the `start_daemon`
trace (`none` when an exception escaping `validate_daemon` aborted the
handler before it). -/
structure PlayTrace where
  validate : VTrace
  browserOpened : Bool
  start : Option StartTrace
  deriving DecidableEq, Repr

/-- Shallow embedding of `on_play_clicked` (gui.py lines 294-297):
`validate_daemon(); open_browser(); start_daemon()`, sequenced
unconditionally — nothing inspects the integrity-check outcome.  The
model covers the executions in which the check does not change the
presence of the daemon binary (in particular every execution where it
performs no download), so a single `daemonExists` flag is threaded to
both steps. -/
def on_play_clicked (cfg : Config) (daemonExists : Bool)
    (localDigest : String) (fetch : Fetch) (h : Option Nat)
    (spawn : Option Nat) : PlayTrace :=
  let v := validate_daemon cfg daemonExists localDigest fetch
  match v.result with
  | .exn e => { validate := { v with result := .exn e }, browserOpened := false, start := none }
  | .ret =>
    { validate := v, browserOpened := true,
      start := some (start_daemon h daemonExists spawn) }

/-- The launcher outcome the spec calls `UpToDate`: the Python
function returns `None` on every path, so "returned `UpToDate`" is
rendered as "returned normally without invoking the downloader". -/
def VTrace.upToDateOutcome (t : VTrace) : Prop :=
  t.result = .ret ∧ t.downloadCalls = 0

/-- A 64-character lowercase hex digest used as a concrete local
SHA-256 value in counterexamples. -/
def hexA : String :=
  "aaaaaaaaaaaaaaaaaaaaaaaaaaaaaaaaaaaaaaaaaaaaaaaaaaaaaaaaaaaaaaaa"

/-- The same digest with every hex letter uppercased. -/
def hexAUp : String :=
  "AAAAAAAAAAAAAAAAAAAAAAAAAAAAAAAAAAAAAAAAAAAAAAAAAAAAAAAAAAAAAAAA"

/-! ### Helper lemmas -/

/-- Length of a Python slice: at most `b - a` characters, fewer when
the string is short. -/
theorem pySlice_length (s : String) (a b : Nat) :
    (pySlice s a b).length = min (b - a) (s.length - a) := by
  show ((s.data.drop a).take (b - a)).length = min (b - a) (s.length - a)
  rw [List.length_take, List.length_drop]
  rfl

/-! ### Claim theorems -/

/-- C1: the claim says a manifest fetch / parse failure during the
integrity check is surfaced to the caller as an error and the
subsequent daemon start does not launch.  The code fails the claim: at
the failing input — daemon binary present, updates enabled, manifest
request raising a `requests.RequestException` — `validate_daemon`
catches the exception, prints a line and returns normally without
downloading, and `on_play_clicked` proceeds to `start_daemon`, which
spawns the daemon (one spawn, handle set). -/
theorem validate_failure_suppressed_and_start_proceeds :
    (on_play_clicked ⟨true, true⟩ true hexA .raises none (some 1)).validate.result = .ret
    ∧ (on_play_clicked ⟨true, true⟩ true hexA .raises none (some 1)).validate.downloadCalls = 0
    ∧ (on_play_clicked ⟨true, true⟩ true hexA .raises none (some 1)).validate.logs
        = ["Validating daemon...", "Error retrieving hash file: <RequestException>"]
    ∧ (on_play_clicked ⟨true, true⟩ true hexA .raises none (some 1)).start.map
        StartTrace.spawnAttempts = some 1
    ∧ (on_play_clicked ⟨true, true⟩ true hexA .raises none (some 1)).start.map
        StartTrace.finalHandle = some (some 1) := by
  decide

/-- C2: the claim says that when the child has not exited by the end of
the 5-second grace period, `stop_daemon` forcibly kills it and then
clears the handle.  The code fails the first half: at the failing input
— a running child whose `wait(5)` times out — the trace contains only
`terminate` and `wait 5`, never `kill`; the handle is nevertheless
cleared unconditionally. -/
theorem stop_timeout_no_forced_kill :
    (stop_daemon (some 1) true .waitTimesOut).finalHandle = none
    ∧ (stop_daemon (some 1) true .waitTimesOut).procOps = [.terminate, .wait 5]
    ∧ ProcOp.kill ∉ (stop_daemon (some 1) true .waitTimesOut).procOps
    ∧ (stop_daemon (some 1) true .waitTimesOut).result = .ret := by
  decide

/-- C3 counterexample: the claim says `start_daemon` while a process is
already owned is a log-only no-op with no second spawn and no handle
overwrite.  Concretely: with handle `some 1` held and the binary
present, `start_daemon` performs one `Popen` and the handle becomes
`some 2`, overwriting `some 1`. -/
theorem start_while_running_spawns_second :
    (start_daemon (some 1) true (some 2)).spawnAttempts = 1
    ∧ (start_daemon (some 1) true (some 2)).finalHandle = some 2 := by
  decide

/-- C3 amended: `start_daemon` performs no check of the existing
handle.  Whenever the binary exists it pushes assets and attempts
exactly one spawn regardless of the current handle; on spawn success
the new handle overwrites the old one, and on spawn failure (the
exception is caught) the old handle is retained. -/
theorem start_ignores_existing_handle (h : Option Nat) (spawn : Option Nat) :
    (start_daemon h true spawn).spawnAttempts = 1
    ∧ (start_daemon h true spawn).finalHandle =
        (match spawn with | some pid => some pid | none => h)
    ∧ (start_daemon h true spawn).assetPushInvoked = true := by
  cases spawn <;> exact ⟨rfl, rfl, rfl⟩

/-- C4 counterexample: the claim says the expected digest comes from
the last non-empty line and that a line shorter than 70 bytes makes
the operation fail with `ManifestFormatError`.  Concretely: for the
body `"xx"` the last non-empty line has 2 bytes, yet the call returns
normally and invokes one download (the slice is silently empty); and
for a body whose digest line is well-formed but followed by an empty
final line, the code reads the empty last line — the extracted digest
is `""`, not the digest on the last non-empty line — and downloads. -/
theorem manifest_short_line_no_error :
    (validate_daemon ⟨true, true⟩ true hexA (.ok 200 "xx")).result = .ret
    ∧ (validate_daemon ⟨true, true⟩ true hexA (.ok 200 "xx")).downloadCalls = 1
    ∧ manifestExpected ("Hash: " ++ hexA ++ "\n\n") = some ""
    ∧ (validate_daemon ⟨true, true⟩ true hexA
        (.ok 200 ("Hash: " ++ hexA ++ "\n\n"))).downloadCalls = 1 := by
  decide

/-- C4 amended: the expected digest is the `[6:70]` slice of the
stripped LAST line of the body (which may be empty — there is no
last-non-empty-line search), and no format failure exists: when that
stripped last line is shorter than 70 characters the call still
returns normally, with the truncated slice unable to match a
64-character local digest, so exactly one download is invoked. -/
theorem manifest_last_line_slice_truncates (d body line : String)
    (hlast : (pySplitlines body).getLast? = some line)
    (hshort : (pyStrip line).length < 70)
    (hd : d.length = 64) :
    manifestExpected body = some (pySlice (pyStrip line) 6 70)
    ∧ (validate_daemon ⟨true, true⟩ true d (.ok 200 body)).result = .ret
    ∧ (validate_daemon ⟨true, true⟩ true d (.ok 200 body)).downloadCalls = 1 := by
  have hexp : manifestExpected body = some (pySlice (pyStrip line) 6 70) := by
    simp [manifestExpected, hlast]
  have hne : d ≠ pySlice (pyStrip line) 6 70 := by
    intro he
    have hlen := congrArg String.length he
    rw [hd, pySlice_length] at hlen
    have hmin : min (70 - 6) ((pyStrip line).length - 6)
        ≤ (pyStrip line).length - 6 := Nat.min_le_right _ _
    omega
  refine ⟨hexp, ?_, ?_⟩ <;> simp [validate_daemon, hexp, hne]

/-- C4 amended, witness: the hypotheses hold and the conclusion
evaluates at the concrete body `"xx"` with local digest `hexA`. -/
theorem manifest_last_line_slice_truncates_wit :
    ((pySplitlines "xx").getLast? = some "xx")
    ∧ ((pyStrip "xx").length < 70)
    ∧ (hexA.length = 64)
    ∧ (manifestExpected "xx" = some (pySlice (pyStrip "xx") 6 70)
       ∧ (validate_daemon ⟨true, true⟩ true hexA (.ok 200 "xx")).result = .ret
       ∧ (validate_daemon ⟨true, true⟩ true hexA (.ok 200 "xx")).downloadCalls = 1) :=
  ⟨by decide, by decide, by decide,
   manifest_last_line_slice_truncates hexA "xx" "xx" (by decide) (by decide) (by decide)⟩

/-- C5 counterexample: the claim says the digest comparison is
case-insensitive, reporting up to date with zero downloads whenever
the two digests are equal up to hex letter case.  Concretely: the
local digest (64 lowercase `a`) and the manifest digest (64 uppercase
`A`) are equal up to case, yet the code compares them with `==` and
invokes a download. -/
theorem digest_case_insensitive_fails :
    pyLower hexA = pyLower hexAUp
    ∧ manifestExpected ("Hash: " ++ hexAUp) = some hexAUp
    ∧ (validate_daemon ⟨true, true⟩ true hexA
        (.ok 200 ("Hash: " ++ hexAUp))).downloadCalls = 1
    ∧ (validate_daemon ⟨true, true⟩ true hexA
        (.ok 200 ("Hash: " ++ hexAUp))).result = .ret := by
  decide

/-- C5 amended: the comparison is exact (case-sensitive) string
equality: for any manifest body from which a digest is extracted, the
check completes normally with one manifest fetch, zero download
invocations exactly when the local digest equals the extracted digest
byte-for-byte, and exactly one download invocation otherwise. -/
theorem digest_compare_exact (d body e : String) (c : Bool)
    (he : manifestExpected body = some e) :
    (validate_daemon ⟨true, c⟩ true d (.ok 200 body)).result = .ret
    ∧ (validate_daemon ⟨true, c⟩ true d (.ok 200 body)).manifestFetches = 1
    ∧ (validate_daemon ⟨true, c⟩ true d (.ok 200 body)).downloadCalls =
        (if d = e then 0 else 1) := by
  by_cases hde : d = e <;> simp [validate_daemon, he, hde]

/-- C5 amended, witness: matching digests at a concrete well-formed
manifest body give zero downloads. -/
theorem digest_compare_exact_wit :
    (manifestExpected ("Hash: " ++ hexA) = some hexA)
    ∧ ((validate_daemon ⟨true, true⟩ true hexA (.ok 200 ("Hash: " ++ hexA))).result = .ret
       ∧ (validate_daemon ⟨true, true⟩ true hexA
           (.ok 200 ("Hash: " ++ hexA))).manifestFetches = 1
       ∧ (validate_daemon ⟨true, true⟩ true hexA
           (.ok 200 ("Hash: " ++ hexA))).downloadCalls = (if hexA = hexA then 0 else 1)) :=
  ⟨by decide, digest_compare_exact hexA ("Hash: " ++ hexA) hexA true (by decide)⟩

/-- C6 counterexample: the claim says a download failing partway never
leaves a partial file at the destination (temporary path plus atomic
rename).  Concretely: with a complete 3-byte binary at the
destination, a stream that delivers one chunk `[9]` and then fails
leaves the destination holding exactly `[9]` — the old binary is
destroyed, a partial file remains, the call returns normally and the
executable bit is not set. -/
theorem download_partial_file_left :
    (download_daemon ⟨true, true⟩ (some [1, 2, 3])
        (.ok 200 (.failAfter [[9]]))).destFile = some [9]
    ∧ (download_daemon ⟨true, true⟩ (some [1, 2, 3])
        (.ok 200 (.failAfter [[9]]))).result = .ret
    ∧ (download_daemon ⟨true, true⟩ (some [1, 2, 3])
        (.ok 200 (.failAfter [[9]]))).execBitSet = false := by
  decide

/-- C6 amended: `download_daemon` writes directly to `dest_path`: the
open-for-write truncates whatever was there, and a mid-stream failure
leaves `dest_path` holding exactly the delivered prefix (possibly
empty), with the error only logged, the call returning normally, and
the executable bit not set. -/
theorem download_writes_directly (b : Bool) (dest0 : Option (List Nat))
    (delivered : List (List Nat)) :
    (download_daemon ⟨true, b⟩ dest0
        (.ok 200 (.failAfter delivered))).destFile = some delivered.flatten
    ∧ (download_daemon ⟨true, b⟩ dest0
        (.ok 200 (.failAfter delivered))).result = .ret
    ∧ (download_daemon ⟨true, b⟩ dest0
        (.ok 200 (.failAfter delivered))).execBitSet = false :=
  ⟨rfl, rfl, rfl⟩

/-- C7: `stop_daemon` never lets an exception escape and always leaves
the handle cleared, for every starting handle, liveness observation
and child behaviour (exit within grace, wait timeout, terminate
raising); and called with no handle it performs no process operation
and prints nothing — a silent no-op. -/
theorem stop_infallible_and_clears_handle (h : Option Nat) (alive : Bool)
    (beh : StopBeh) :
    ((stop_daemon h alive beh).result = .ret
     ∧ (stop_daemon h alive beh).finalHandle = none)
    ∧ ((stop_daemon none alive beh).procOps = []
       ∧ (stop_daemon none alive beh).logs = []) := by
  cases h <;> cases alive <;> cases beh <;> exact ⟨⟨rfl, rfl⟩, rfl, rfl⟩

/-- C8: in both asset-copy directions, when saving is enabled and both
trees exist, the destination is removed (`rmtree`) strictly before the
recursive copy is attempted; the call returns normally even when the
copy fails, and the final destination is determined by the source and
the copy behaviour alone — the prior destination contents (any `d`)
never reappear. -/
theorem copy_assets_removes_dest_then_copies (s d : AssetTree) (beh : CopyBeh) :
    ((copy_assets_to_tmp true (some s) (some d) beh).ops = [.rmtreeDst, .copytreeCall]
     ∧ (copy_assets_to_tmp true (some s) (some d) beh).result = .ret
     ∧ (copy_assets_to_tmp true (some s) (some d) beh).finalDst = copyOutcome s beh)
    ∧ ((copy_assets_from_tmp true (some s) (some d) beh).ops = [.rmtreeDst, .copytreeCall]
       ∧ (copy_assets_from_tmp true (some s) (some d) beh).result = .ret
       ∧ (copy_assets_from_tmp true (some s) (some d) beh).finalDst = copyOutcome s beh) := by
  cases beh <;> exact ⟨⟨rfl, rfl, rfl⟩, rfl, rfl, rfl⟩

/-- C9: with `update_enabled` false, `validate_daemon` returns the
up-to-date outcome immediately (the source returns `None` after
printing only the disabled notice) and performs zero manifest fetches
and zero download invocations, for every filesystem and manifest-server
state. -/
theorem validate_disabled_no_network (b daemonExists : Bool) (d : String)
    (fetch : Fetch) :
    (validate_daemon ⟨false, b⟩ daemonExists d fetch).upToDateOutcome
    ∧ (validate_daemon ⟨false, b⟩ daemonExists d fetch).manifestFetches = 0
    ∧ (validate_daemon ⟨false, b⟩ daemonExists d fetch).downloadCalls = 0
    ∧ (validate_daemon ⟨false, b⟩ daemonExists d fetch).logs
        = ["Daemon updates are disabled."] :=
  ⟨⟨rfl, rfl⟩, rfl, rfl, rfl⟩

/-- C10: pushing the persistent tree to the runtime location and
pulling it back, with saving enabled, both copies succeeding and the
runtime tree untouched in between, restores the persistent tree
exactly. -/
theorem push_pull_round_trip_identity (store : AssetTree)
    (tmp0 : Option AssetTree) :
    (copy_assets_from_tmp true
        (copy_assets_to_tmp true (some store) tmp0 .ok).finalDst
        (some store) .ok).finalDst = some store
    ∧ (copy_assets_to_tmp true (some store) tmp0 .ok).result = .ret
    ∧ (copy_assets_from_tmp true
        (copy_assets_to_tmp true (some store) tmp0 .ok).finalDst
        (some store) .ok).result = .ret := by
  cases tmp0 <;> exact ⟨rfl, rfl, rfl⟩
